import Mathlib

/-!
Verification of the TalkFlow streaming pipeline core against its
natural-language specification.

The Python sources are shallowly embedded:
* text is `List Char` (Python `str`), numeric samples are `ℚ`
  (Python floats, idealized as exact rationals),
* per-object mutable state becomes explicit state records threaded
  through pure transition functions,
* Python exceptions become `Except String`.

Components embedded below, in order:
* `PhraseBuffer`      (backend/pipeline/stabilizer.py, class PhraseBuffer)
* `VoiceActivityDetector` state machine (backend/pipeline/vad.py)
* `TextStabilizer` together with a model of Python difflib's
  `SequenceMatcher` (backend/pipeline/stabilizer.py)
* `MetricsCollector`  (backend/utils/metrics.py)
* `PipelineOrchestrator` (backend/pipeline/orchestrator.py)
-/

set_option maxRecDepth 100000

namespace TalkFlow

/-! ## Python string primitives used by the embedded code -/

/-- Python whitespace for `str.strip()` (ASCII subset actually reachable
from this pipeline's character data). -/
def isPySpace (c : Char) : Bool :=
  c == ' ' || c == '\t' || c == '\n' || c == '\r' || c == '\x0b' || c == '\x0c'

/-- Python `str.strip()`: drop whitespace from both ends. -/
def pyStrip (s : List Char) : List Char :=
  ((s.dropWhile isPySpace).reverse.dropWhile isPySpace).reverse

/-- Python `str.rfind(c)` for a single character: index of the last
occurrence, `-1` if absent. -/
def rfind : List Char → Char → Int
  | [], _ => -1
  | a :: rest, c =>
    let r := rfind rest c
    if 0 ≤ r then r + 1 else if a == c then 0 else -1

/-! ## PhraseBuffer (stabilizer.py, lines 174-243)

State is the single field `buffer : str`; `add` appends, and once the
buffer is at least `min_phrase_length` long it looks for the right-most
delimiter occurrence and splits there when that index is itself at least
`min_phrase_length`. -/

/-- Default `phrase_delimiters = ".!?,;:\n"`. -/
def defaultDelims : List Char := ['.', '!', '?', ',', ';', ':', '\n']

/-- `PhraseBuffer.add`: returns `(emitted_phrase?, new_buffer)`. -/
def PhraseBuffer.add (minPhraseLength : Nat) (delims : List Char)
    (buffer : List Char) (text : List Char) : Option (List Char) × List Char :=
  let buf := buffer ++ text
  if minPhraseLength ≤ buf.length then
    -- `last_delimiter_pos` starts at -1 and takes the max over `rfind`s
    let lastPos : Int := delims.foldl (fun acc d => max acc (rfind buf d)) (-1)
    if (minPhraseLength : Int) ≤ lastPos then
      (some (pyStrip (buf.take (lastPos.toNat + 1))),
       pyStrip (buf.drop (lastPos.toNat + 1)))
    else
      (none, buf)
  else
    (none, buf)

/-- `PhraseBuffer.flush`: returns the whole buffer, leaving it empty. -/
def PhraseBuffer.flush (buffer : List Char) : List Char × List Char :=
  (buffer, [])

example :
    PhraseBuffer.add 10 defaultDelims [] "Hello world. How are".toList =
      (some "Hello world.".toList, "How are".toList) := by decide

example :
    PhraseBuffer.add 10 defaultDelims "How are".toList "you?".toList =
      (some "How areyou?".toList, []) := by decide

/-! ## VoiceActivityDetector (vad.py, lines 15-221)

The per-chunk speech/non-speech verdict (`is_speech_detected`) is produced
by the pluggable classifier (the Silero neural model, falling back to RMS
energy) — an external collaborator per the spec; it enters `process` as an
input bit.  Everything downstream of that bit — the hysteresis state
machine of lines 112-148 — is embedded verbatim.  Audio chunks are lists
of rational samples. -/

structure VADConfig where
  minSpeechFrames : Nat
  minSilenceFrames : Nat
deriving DecidableEq

/-- `__init__` derives the frame thresholds from millisecond durations with
`frame_duration_ms = 30` and floor division. -/
def VADConfig.ofDurations (minSpeechMs minSilenceMs : Nat) : VADConfig :=
  { minSpeechFrames := minSpeechMs / 30, minSilenceFrames := minSilenceMs / 30 }

structure VADState where
  speechBuffer : List (List ℚ)
  isSpeaking : Bool
  speechFrames : Nat
  silenceFrames : Nat
deriving DecidableEq

/-- The state established by `__init__` and by `reset()`. -/
def VADState.reset : VADState :=
  { speechBuffer := [], isSpeaking := false, speechFrames := 0, silenceFrames := 0 }

/-- `VoiceActivityDetector.process` state machine (vad.py lines 112-148).
Returns `((is_speech, segment?), new_state)`; the completed segment is the
concatenation of the buffered chunks. -/
def VoiceActivityDetector.process (cfg : VADConfig) (st : VADState)
    (chunk : List ℚ) (isSpeechDetected : Bool) :
    (Bool × Option (List ℚ)) × VADState :=
  if isSpeechDetected then
    let speechFrames := st.speechFrames + 1
    let buf := st.speechBuffer ++ [chunk]
    let speaking :=
      if !st.isSpeaking && cfg.minSpeechFrames ≤ speechFrames then true
      else st.isSpeaking
    ((true, none),
     { speechBuffer := buf, isSpeaking := speaking,
       speechFrames := speechFrames, silenceFrames := 0 })
  else
    let silenceFrames := st.silenceFrames + 1
    if st.isSpeaking then
      let buf := st.speechBuffer ++ [chunk]
      if cfg.minSilenceFrames ≤ silenceFrames then
        let segment := if buf ≠ [] then some buf.flatten else none
        ((true, segment), VADState.reset)
      else
        ((false, none),
         { speechBuffer := buf, isSpeaking := st.isSpeaking,
           speechFrames := st.speechFrames, silenceFrames := silenceFrames })
    else
      ((false, none), { st with silenceFrames := silenceFrames })

/-- Feed a sequence of (chunk, classifier-verdict) inputs through the
state machine. -/
def VoiceActivityDetector.run (cfg : VADConfig) (st : VADState)
    (inputs : List (List ℚ × Bool)) : VADState :=
  inputs.foldl (fun s x => (VoiceActivityDetector.process cfg s x.1 x.2).2) st

/-- Number of speech-positive verdicts in a trace. -/
def countSpeech (inputs : List (List ℚ × Bool)) : Nat :=
  (inputs.filter (fun x => x.2)).length

/-- Length of the trailing run of silence verdicts in a trace. -/
def trailingSilence (inputs : List (List ℚ × Bool)) : Nat :=
  ((inputs.reverse).takeWhile (fun x => !x.2)).length

/-- Length of the longest run of consecutive speech-positive verdicts. -/
def maxSpeechRun (inputs : List (List ℚ × Bool)) : Nat :=
  (inputs.foldl
    (fun (acc : Nat × Nat) x =>
      if x.2 then (acc.1 + 1, max acc.2 (acc.1 + 1)) else (0, acc.2))
    (0, 0)).2

example : maxSpeechRun [([1], true), ([1], false), ([1], true)] = 1 := by decide

example :
    (VoiceActivityDetector.run (VADConfig.ofDurations 60 60) VADState.reset
      [([1], true), ([1], false), ([1], true)]).isSpeaking = true := by decide

lemma vad_run_cons (cfg : VADConfig) (st : VADState) (x : List ℚ × Bool)
    (xs : List (List ℚ × Bool)) :
    VoiceActivityDetector.run cfg st (x :: xs) =
      VoiceActivityDetector.run cfg
        ((VoiceActivityDetector.process cfg st x.1 x.2).2) xs := rfl

lemma vad_run_append (cfg : VADConfig) (st : VADState)
    (xs ys : List (List ℚ × Bool)) :
    VoiceActivityDetector.run cfg st (xs ++ ys) =
      VoiceActivityDetector.run cfg (VoiceActivityDetector.run cfg st xs) ys := by
  simp [VoiceActivityDetector.run]

/-- One step increases `speech_frames` by at most the step's speech bit. -/
lemma vad_step_speechFrames (cfg : VADConfig) (st : VADState)
    (c : List ℚ) (b : Bool) :
    ((VoiceActivityDetector.process cfg st c b).2).speechFrames ≤
      st.speechFrames + (if b then 1 else 0) := by
  unfold VoiceActivityDetector.process
  cases b <;> simp
  split
  · split <;> simp [VADState.reset]
  · simp

/-- `speech_frames` never exceeds the number of speech-positive verdicts
consumed: silence frames leave it unchanged and closure resets it to 0. -/
lemma vad_speechFrames_le_countSpeech (cfg : VADConfig) (st : VADState)
    (inputs : List (List ℚ × Bool)) :
    (VoiceActivityDetector.run cfg st inputs).speechFrames ≤
      st.speechFrames + countSpeech inputs := by
  induction inputs generalizing st with
  | nil => simp [VoiceActivityDetector.run, countSpeech]
  | cons x xs ih =>
    rw [vad_run_cons]
    refine le_trans (ih _) ?_
    have hstep := vad_step_speechFrames cfg st x.1 x.2
    have hcount : countSpeech (x :: xs) =
        (if x.2 then 1 else 0) + countSpeech xs := by
      cases hx : x.2 <;> simp [countSpeech, hx, Nat.add_comm]
    omega

/-- A speech-positive step zeroes `silence_frames`; a silence step grows it
by at most one. -/
lemma vad_step_silenceFrames (cfg : VADConfig) (st : VADState)
    (c : List ℚ) (b : Bool) :
    ((VoiceActivityDetector.process cfg st c b).2).silenceFrames ≤
      if b then 0 else st.silenceFrames + 1 := by
  unfold VoiceActivityDetector.process
  cases b <;> simp
  split
  · split <;> simp [VADState.reset]
  · simp

lemma trailingSilence_append (inputs : List (List ℚ × Bool)) (x : List ℚ × Bool) :
    trailingSilence (inputs ++ [x]) =
      if x.2 then 0 else trailingSilence inputs + 1 := by
  cases hx : x.2 <;> simp [trailingSilence, hx]

/-- `silence_frames` never exceeds the length of the trailing run of
silence verdicts in the consumed trace. -/
lemma vad_silenceFrames_le_trailing (cfg : VADConfig)
    (inputs : List (List ℚ × Bool)) :
    (VoiceActivityDetector.run cfg VADState.reset inputs).silenceFrames ≤
      trailingSilence inputs := by
  induction inputs using List.reverseRecOn with
  | nil => simp [VoiceActivityDetector.run, VADState.reset, trailingSilence]
  | append_singleton xs x ih =>
    rw [vad_run_append]
    have hstep := vad_step_silenceFrames cfg
      (VoiceActivityDetector.run cfg VADState.reset xs) x.1 x.2
    rw [trailingSilence_append]
    cases hx : x.2 <;>
      (simp_all [VoiceActivityDetector.run, VoiceActivityDetector.process];
       try omega)

/-- The SILENCE→SPEECH transition only happens on a speech-positive step
whose cumulative speech count clears the threshold. -/
lemma vad_onset_count (cfg : VADConfig) (inputs : List (List ℚ × Bool))
    (x : List ℚ × Bool)
    (hpre : (VoiceActivityDetector.run cfg VADState.reset inputs).isSpeaking = false)
    (hpost : (VoiceActivityDetector.run cfg VADState.reset
      (inputs ++ [x])).isSpeaking = true) :
    cfg.minSpeechFrames ≤ countSpeech (inputs ++ [x]) := by
  set s := VoiceActivityDetector.run cfg VADState.reset inputs with hs
  rw [vad_run_append] at hpost
  have hcount : s.speechFrames ≤ countSpeech inputs := by
    have h := vad_speechFrames_le_countSpeech cfg VADState.reset inputs
    rw [← hs] at h
    simpa [VADState.reset] using h
  have hc : countSpeech (inputs ++ [x]) =
      countSpeech inputs + (if x.2 then 1 else 0) := by
    cases hx : x.2 <;> simp [countSpeech, hx]
  rw [← hs] at hpost
  cases hx : x.2 with
  | true =>
    simp [VoiceActivityDetector.run, VoiceActivityDetector.process, hx, hpre]
      at hpost
    rw [hc, hx]
    simp only [if_true, if_pos]
    omega
  | false =>
    exfalso
    simp [VoiceActivityDetector.run, VoiceActivityDetector.process, hx, hpre]
      at hpost

/-- Segment emission only happens on a silence step whose consecutive
silence streak clears the threshold. -/
lemma vad_closure_trailing (cfg : VADConfig) (inputs : List (List ℚ × Bool))
    (x : List ℚ × Bool)
    (hemit : ((VoiceActivityDetector.process cfg
      (VoiceActivityDetector.run cfg VADState.reset inputs) x.1 x.2).1).2 ≠ none) :
    cfg.minSilenceFrames ≤ trailingSilence (inputs ++ [x]) := by
  set s := VoiceActivityDetector.run cfg VADState.reset inputs with hs
  have hsil := vad_silenceFrames_le_trailing cfg inputs
  rw [← hs] at hsil
  rw [trailingSilence_append]
  cases hx : x.2 with
  | true => simp [VoiceActivityDetector.process, hx] at hemit
  | false =>
    simp only [VoiceActivityDetector.process, hx] at hemit
    try simp only [Bool.false_eq_true, if_false] at hemit
    simp only [Bool.false_eq_true, if_false]
    split at hemit
    · split at hemit
      · omega
      · simp at hemit
    · simp at hemit

/-- C1: as stated (onset needs `min_speech_frames` CONSECUTIVE speech
frames) the claim is false: `speech_frames` is cumulative — a silence
frame observed while idle does not reset it (vad.py lines 125-126 touch
only `silence_frames`).  With `min_speech_duration_ms = 60` (2 frames),
the trace speech/silence/speech turns `is_speaking` on although no two
consecutive speech-positive frames ever occurred. -/
theorem vad_onset_consecutive_counterexample :
    (VoiceActivityDetector.run (VADConfig.ofDurations 60 60) VADState.reset
      [([1], true), ([1], false), ([1], true)]).isSpeaking = true ∧
    maxSpeechRun [([1], true), ([1], false), ([1], true)] <
      (VADConfig.ofDurations 60 60).minSpeechFrames := by
  decide

/-- C1 (amended): starting from the reset state, (a) the segmenter does not
transition SILENCE→SPEECH before at least `min_speech_frames` speech-positive
frames have been observed in total (not necessarily consecutively), and
(b) while in SPEECH it does not emit a segment before at least
`min_silence_frames` consecutive silence frames have been observed. -/
theorem vad_hysteresis_amended (cfg : VADConfig)
    (inputs : List (List ℚ × Bool)) (x : List ℚ × Bool) :
    ((VoiceActivityDetector.run cfg VADState.reset inputs).isSpeaking = false →
      (VoiceActivityDetector.run cfg VADState.reset
        (inputs ++ [x])).isSpeaking = true →
      cfg.minSpeechFrames ≤ countSpeech (inputs ++ [x])) ∧
    (((VoiceActivityDetector.process cfg
        (VoiceActivityDetector.run cfg VADState.reset inputs) x.1 x.2).1).2 ≠ none →
      cfg.minSilenceFrames ≤ trailingSilence (inputs ++ [x])) :=
  ⟨vad_onset_count cfg inputs x, vad_closure_trailing cfg inputs x⟩

/-- Witness for `vad_hysteresis_amended` at concrete traces: an onset after
one speech frame with threshold 1, and a closure after one silence frame. -/
theorem vad_hysteresis_amended_witness :
    ((VADConfig.mk 1 1).minSpeechFrames ≤ countSpeech [([1], true)]) ∧
    ((VADConfig.mk 1 1).minSilenceFrames ≤
      trailingSilence [([1], true), ([2], false)]) :=
  ⟨(vad_hysteresis_amended (VADConfig.mk 1 1) [] ([1], true)).1
      (by decide) (by decide),
   (vad_hysteresis_amended (VADConfig.mk 1 1) [([1], true)] ([2], false)).2
      (by decide)⟩

/-- C10: whenever `VoiceActivityDetector.process` returns a completed
segment, the `is_speech` element of the returned tuple is `True` (the
closure path returns the literal `True`), even though the frame that
triggered closure was classified as silence. -/
theorem vad_emission_reports_speech (cfg : VADConfig) (st : VADState)
    (c : List ℚ) (b : Bool)
    (hemit : ((VoiceActivityDetector.process cfg st c b).1).2 ≠ none) :
    ((VoiceActivityDetector.process cfg st c b).1).1 = true ∧ b = false := by
  cases hb : b with
  | true => simp [VoiceActivityDetector.process, hb] at hemit
  | false =>
    refine ⟨?_, rfl⟩
    simp only [VoiceActivityDetector.process, hb] at hemit ⊢
    try simp only [Bool.false_eq_true, if_false] at hemit ⊢
    split at hemit
    · split at hemit
      · simp_all
      · simp at hemit
    · simp at hemit

/-- Witness for `vad_emission_reports_speech`: a speaking state one silence
frame away from closure emits on a silence-classified chunk. -/
theorem vad_emission_reports_speech_witness :
    ((VoiceActivityDetector.process (VADConfig.mk 1 1)
        (VADState.mk [[1]] true 3 0) [2] false).1).2 ≠ none ∧
    (((VoiceActivityDetector.process (VADConfig.mk 1 1)
        (VADState.mk [[1]] true 3 0) [2] false).1).1 = true ∧ false = false) :=
  ⟨by decide,
   vad_emission_reports_speech (VADConfig.mk 1 1)
     (VADState.mk [[1]] true 3 0) [2] false (by decide)⟩

/-! ## difflib.SequenceMatcher (Python stdlib)

`TextStabilizer` delegates to `SequenceMatcher(None, text1, text2)` for
both `ratio()` and `get_matching_blocks()`.  The matcher is embedded with
`isjunk = None` (as called) and `autojunk = True` (the default):
characters of `b` occurring more than `len(b)//100 + 1` times are dropped
from `b2j` when `len(b) ≥ 200`.  `find_longest_match`'s dynamic program
over `b2j`, the update-on-strictly-greater best tracking, and the
post-extension over equal elements are reproduced; the junk-extension
loops are no-ops since the junk set is empty. -/

/-- A character of `b` dropped from `b2j` by the autojunk heuristic. -/
def isPopular (b : List Char) (c : Char) : Bool :=
  decide (200 ≤ b.length) &&
    decide (b.length / 100 + 1 < (b.filter (fun x => x == c)).length)

/-- One row of the `find_longest_match` DP: entry `j` is `newj2len[j]`,
the length of the common run ending at `(i, j)`.  `prevRow` is aligned so
its head is `j2len[j]`; `diag` carries `j2len[j-1]`. -/
def flmRow (ai : Char) (pop : Char → Bool) :
    List Char → List Nat → Nat → List Nat
  | [], _, _ => []
  | bj :: bs, prevRow, diag =>
    (if bj == ai && !pop bj then diag + 1 else 0) ::
      flmRow ai pop bs prevRow.tail (prevRow.headD 0)

/-- Scan row `i` left to right, replacing the best `(besti, bestj, size)`
whenever a strictly larger run is found (difflib updates only on `>`). -/
def flmScanRow (i : Nat) (row : List Nat) (best : Nat × Nat × Nat) :
    Nat × Nat × Nat :=
  (row.foldl
    (fun (st : Nat × (Nat × Nat × Nat)) k =>
      (st.1 + 1,
       if st.2.2.2 < k then (i + 1 - k, st.1 + 1 - k, k) else st.2))
    (0, best)).2

/-- The DP part of `find_longest_match` over all of `a`/`b`. -/
def flmDP (pop : Char → Bool) (a b : List Char) : Nat × Nat × Nat :=
  (a.foldl
    (fun (st : List Nat × Nat × (Nat × Nat × Nat)) ai =>
      let row := flmRow ai pop b st.1 0
      (row, st.2.1 + 1, flmScanRow st.2.1 row st.2.2))
    (List.replicate b.length 0, 0, (0, 0, 0))).2.2

/-- Extend the best block backward over equal elements (the non-junk
extension loop; with `isjunk=None` nothing blocks it). -/
def extendBack (a b : List Char) : Nat → Nat → Nat → Nat × Nat × Nat
  | 0, bestj, k => (0, bestj, k)
  | bi + 1, 0, k => (bi + 1, 0, k)
  | bi + 1, bj + 1, k =>
    match a.get? bi, b.get? bj with
    | some ca, some cb =>
      if ca == cb then extendBack a b bi bj (k + 1) else (bi + 1, bj + 1, k)
    | _, _ => (bi + 1, bj + 1, k)

/-- Extend the best block forward over equal elements.  The loop advances
at most `min |a| |b|` times; `fuel` bounds it. -/
def extendFwd (a b : List Char) (besti bestj : Nat) : Nat → Nat → Nat
  | k, 0 => k
  | k, fuel + 1 =>
    match a.get? (besti + k), b.get? (bestj + k) with
    | some ca, some cb =>
      if ca == cb then extendFwd a b besti bestj (k + 1) fuel else k
    | _, _ => k

/-- `find_longest_match` on whole strings (sub-ranges are taken by
slicing the lists in the recursion below, which is equivalent to
difflib's index-range restriction). -/
def findLongestMatch (pop : Char → Bool) (a b : List Char) :
    Nat × Nat × Nat :=
  let d := flmDP pop a b
  let e := extendBack a b d.1 d.2.1 d.2.2
  (e.1, e.2.1, extendFwd a b e.1 e.2.1 e.2.2 (a.length + b.length))

/-- The recursive collection phase of `get_matching_blocks`, producing
the non-degenerate blocks sorted by start index.  `fuel` dominates the
recursion depth (each split removes at least one element). -/
def matchingBlocksAux (pop : Char → Bool) :
    Nat → List Char → List Char → List (Nat × Nat × Nat)
  | 0, _, _ => []
  | fuel + 1, a, b =>
    let m := findLongestMatch pop a b
    let i := m.1
    let j := m.2.1
    let k := m.2.2
    if k = 0 then []
    else
      matchingBlocksAux pop fuel (a.take i) (b.take j) ++
        [(i, j, k)] ++
        (matchingBlocksAux pop fuel (a.drop (i + k)) (b.drop (j + k))).map
          (fun blk => (blk.1 + (i + k), blk.2.1 + (j + k), blk.2.2))

/-- The adjacency-merging pass of `get_matching_blocks`. -/
def mergeAdjacent : List (Nat × Nat × Nat) → (Nat × Nat × Nat) →
    List (Nat × Nat × Nat)
  | [], cur => if cur.2.2 ≠ 0 then [cur] else []
  | blk :: rest, cur =>
    if cur.1 + cur.2.2 = blk.1 ∧ cur.2.1 + cur.2.2 = blk.2.1 then
      mergeAdjacent rest (cur.1, cur.2.1, cur.2.2 + blk.2.2)
    else
      (if cur.2.2 ≠ 0 then [cur] else []) ++ mergeAdjacent rest blk

/-- `get_matching_blocks`: merged blocks plus the `(la, lb, 0)` sentinel. -/
def getMatchingBlocks (a b : List Char) : List (Nat × Nat × Nat) :=
  mergeAdjacent
    (matchingBlocksAux (isPopular b) (a.length + b.length + 1) a b)
    (0, 0, 0) ++ [(a.length, b.length, 0)]

/-- `SequenceMatcher.ratio()`: `2·M / (la + lb)` with `M` the total
matched size (1.0 on two empty sequences). -/
def smRatio (a b : List Char) : ℚ :=
  if a.length + b.length ≠ 0 then
    (2 * (((getMatchingBlocks a b).map (fun blk => blk.2.2)).sum : ℚ)) /
      ((a.length : ℚ) + (b.length : ℚ))
  else 1

example : smRatio "abcd".toList "abcd".toList = 1 := by
  with_unfolding_all decide
example : smRatio "abcd".toList "qqqq".toList = 0 := by
  with_unfolding_all decide
example : smRatio "abcdefghijX".toList "abcdefghijY".toList = 10 / 11 := by
  with_unfolding_all decide

/-! ## TextStabilizer (stabilizer.py, lines 14-171)

State `{previous_text, stable_text, consecutive_stable_count}`; `process`
takes the newest hypothesis and an `is_final` flag.  Defaults:
`similarity_threshold = 0.85`, `min_stable_length = 10`. -/

structure StabState where
  previousText : List Char
  stableText : List Char
  consecutiveStableCount : Nat
deriving DecidableEq

/-- The state established by `__init__` and `reset()`. -/
def StabState.reset : StabState :=
  { previousText := [], stableText := [], consecutiveStableCount := 0 }

/-- The dictionary `process` returns (the `full_text` key, present only on
the non-final path and used by no caller, is omitted). -/
structure StabResult where
  stableText : List Char
  incrementalText : List Char
  confidence : ℚ
  isStable : Bool
deriving DecidableEq

/-- `TextStabilizer._calculate_similarity`. -/
def calculateSimilarity (text1 text2 : List Char) : ℚ :=
  if text1 = [] ∧ text2 = [] then 1
  else if text1 = [] ∨ text2 = [] then 0
  else smRatio text1 text2

/-- `TextStabilizer._find_stable_prefix`: the first matching block, when
it starts at position 0 of both strings, cut out of `text2`. -/
def findStablePrefix (text1 text2 : List Char) : List Char :=
  if text1 = [] ∨ text2 = [] then []
  else
    match getMatchingBlocks text1 text2 with
    | [] => []
    | first :: _ =>
      if first.1 = 0 ∧ first.2.1 = 0 then text2.take first.2.2 else []

/-- `TextStabilizer.process`.  Returns `(result_dict, new_state)`. -/
def TextStabilizer.process (similarityThreshold : ℚ) (minStableLength : Nat)
    (st : StabState) (newText : List Char) (isFinal : Bool) :
    StabResult × StabState :=
  if newText = [] then
    ({ stableText := st.stableText, incrementalText := [],
       confidence := 1, isStable := true }, st)
  else if isFinal then
    -- `self.stable_text = new_text` executes BEFORE the incremental
    -- slice reads `len(self.stable_text)`
    let stableAfter := newText
    ({ stableText := newText,
       incrementalText :=
         if stableAfter.length < newText.length then
           newText.drop stableAfter.length
         else [],
       confidence := 1, isStable := true },
     { previousText := newText, stableText := newText,
       consecutiveStableCount := 0 })
  else
    let similarity := calculateSimilarity st.previousText newText
    let stablePfx := findStablePrefix st.previousText newText
    let isStable :=
      decide (similarityThreshold ≤ similarity) &&
        decide (minStableLength ≤ stablePfx.length)
    let count := if isStable then st.consecutiveStableCount + 1 else 0
    let commit := 2 ≤ count ∨ st.stableText.length < stablePfx.length
    let newStable := if commit then stablePfx else st.stableText
    let incremental := if commit then stablePfx.drop st.stableText.length else []
    ({ stableText := newStable, incrementalText := incremental,
       confidence := similarity, isStable := isStable },
     { previousText := newText, stableText := newStable,
       consecutiveStableCount := count })

/-- Shared shape of the final, non-empty branch of `process`. -/
lemma stabilizer_final_nonempty (thr : ℚ) (minLen : Nat) (st : StabState)
    (text : List Char) (h : text ≠ []) :
    TextStabilizer.process thr minLen st text true =
      ({ stableText := text, incrementalText := [],
         confidence := 1, isStable := true },
       { previousText := text, stableText := text,
         consecutiveStableCount := 0 }) := by
  unfold TextStabilizer.process
  rw [if_neg h]
  simp

/-- Whatever the matcher computed, `_find_stable_prefix` only ever returns
a `take` of `text2` (or the empty string). -/
lemma findStablePrefix_isPrefix (text1 text2 : List Char) :
    findStablePrefix text1 text2 <+: text2 := by
  unfold findStablePrefix
  split
  · exact List.nil_prefix
  · cases h : getMatchingBlocks text1 text2 with
    | nil => exact List.nil_prefix
    | cons first rest =>
      dsimp only
      split
      · exact List.take_prefix _ _
      · exact List.nil_prefix

/-- C2: as stated (for "possibly empty" input) the claim is false: an empty
`new_text` takes the early-return branch (stabilizer.py line 56) before the
`is_final` branch is ever reached, so the old `stable_text` survives and
the counter is not reset. -/
theorem stabilizer_finality_counterexample :
    ((TextStabilizer.process (17/20) 10
        (StabState.mk "x".toList "abc".toList 1) [] true).1.stableText ≠
      ([] : List Char)) ∧
    ((TextStabilizer.process (17/20) 10
        (StabState.mk "x".toList "abc".toList 1) [] true).2.consecutiveStableCount ≠ 0) := by
  with_unfolding_all decide

/-- C2 (amended): for every stabilizer state and every NON-EMPTY input
text, `process(text, is_final=true)` sets `stable_text` to exactly that
input, resets `consecutive_stable_count` to 0, and reports the input as
the returned `stable_text`, regardless of prior state. -/
theorem stabilizer_finality_amended (thr : ℚ) (minLen : Nat) (st : StabState)
    (text : List Char) (h : text ≠ []) :
    (TextStabilizer.process thr minLen st text true).1.stableText = text ∧
    (TextStabilizer.process thr minLen st text true).2.stableText = text ∧
    (TextStabilizer.process thr minLen st text true).2.consecutiveStableCount = 0 := by
  rw [stabilizer_final_nonempty thr minLen st text h]
  exact ⟨rfl, rfl, rfl⟩

/-- Witness for `stabilizer_finality_amended` on a non-trivial prior
state. -/
theorem stabilizer_finality_amended_witness :
    ("hi".toList ≠ ([] : List Char)) ∧
    ((TextStabilizer.process (17/20) 10
        (StabState.mk "x".toList "abc".toList 1) "hi".toList true).1.stableText =
      "hi".toList ∧
     (TextStabilizer.process (17/20) 10
        (StabState.mk "x".toList "abc".toList 1) "hi".toList true).2.stableText =
      "hi".toList ∧
     (TextStabilizer.process (17/20) 10
        (StabState.mk "x".toList "abc".toList 1) "hi".toList true).2.consecutiveStableCount = 0) :=
  ⟨by decide,
   stabilizer_finality_amended (17/20) 10
     (StabState.mk "x".toList "abc".toList 1) "hi".toList (by decide)⟩

/-- C9: on every final call with non-empty input the returned
`incremental_text` is empty, because `self.stable_text = new_text` runs
before the slice bound `len(self.stable_text)` is read. -/
theorem stabilizer_final_incremental_empty (thr : ℚ) (minLen : Nat)
    (st : StabState) (text : List Char) (h : text ≠ []) :
    (TextStabilizer.process thr minLen st text true).1.incrementalText = [] := by
  rw [stabilizer_final_nonempty thr minLen st text h]

/-- Witness for `stabilizer_final_incremental_empty`: even when the new
text strictly extends the previous stable text. -/
theorem stabilizer_final_incremental_empty_witness :
    ("abcdef".toList ≠ ([] : List Char)) ∧
    (TextStabilizer.process (17/20) 10
        (StabState.mk "abc".toList "abc".toList 2) "abcdef".toList true).1.incrementalText = [] :=
  ⟨by decide,
   stabilizer_final_incremental_empty (17/20) 10
     (StabState.mk "abc".toList "abc".toList 2) "abcdef".toList (by decide)⟩

/-- The four-step run refuting C5: stabilize on `"abcdefghijX"` (committed
as stable), break similarity with `"qqqqqqqqqqq"`, then repeat it.  The
repeat is judged stable (similarity 1, common prefix length 11 ≥ 10) but —
`consecutive_stable_count` having been reset — the commit rule keeps the
stale `stable_text = "abcdefghijX"`. -/
def c5Result : StabResult :=
  (TextStabilizer.process (17/20) 10
    ((TextStabilizer.process (17/20) 10
      ((TextStabilizer.process (17/20) 10
        ((TextStabilizer.process (17/20) 10 StabState.reset
          "abcdefghijX".toList false).2)
        "abcdefghijX".toList false).2)
      "qqqqqqqqqqq".toList false).2)
    "qqqqqqqqqqq".toList false).1

/-- C5: the invariant is false as stated: a non-final call can return
`is_stable = true` while the reported (and stored) `stable_text` is a
stale value that is not a prefix of the most recent input text. -/
theorem stabilizer_stable_prefix_counterexample :
    c5Result.isStable = true ∧
    c5Result.stableText.isPrefixOf "qqqqqqqqqqq".toList = false := by
  with_unfolding_all decide

/-- C5 (amended): on every non-final call, whenever `is_stable` is true
AND the call advanced `stable_text`, the stable text held after the call
is a prefix (from position 0) of the input text, and is what the result
reports. -/
theorem stabilizer_stable_prefix_amended (thr : ℚ) (minLen : Nat)
    (st : StabState) (text : List Char)
    (_hstable : (TextStabilizer.process thr minLen st text false).1.isStable = true)
    (hupd : (TextStabilizer.process thr minLen st text false).2.stableText ≠
      st.stableText) :
    (TextStabilizer.process thr minLen st text false).2.stableText <+: text ∧
    (TextStabilizer.process thr minLen st text false).1.stableText =
      (TextStabilizer.process thr minLen st text false).2.stableText := by
  unfold TextStabilizer.process at hupd ⊢
  by_cases he : text = []
  · rw [if_pos he] at hupd
    exact absurd rfl hupd
  · rw [if_neg he] at hupd ⊢
    simp only [Bool.false_eq_true, if_false] at hupd ⊢
    by_cases hc : 2 ≤ (if (decide (thr ≤ calculateSimilarity st.previousText text) &&
          decide (minLen ≤ (findStablePrefix st.previousText text).length)) = true
        then st.consecutiveStableCount + 1 else 0) ∨
        st.stableText.length < (findStablePrefix st.previousText text).length
    · constructor
      · simp only [if_pos hc]
        exact findStablePrefix_isPrefix st.previousText text
      · simp only [if_pos hc]
    · rw [if_neg hc] at hupd
      exact absurd rfl hupd

/-- Witness for `stabilizer_stable_prefix_amended`: the second identical
hypothesis commits the full text, which is trivially its own prefix. -/
theorem stabilizer_stable_prefix_amended_witness :
    ((TextStabilizer.process (17/20) 10
        (StabState.mk "abcdefghijX".toList [] 0) "abcdefghijX".toList
        false).1.isStable = true) ∧
    ((TextStabilizer.process (17/20) 10
        (StabState.mk "abcdefghijX".toList [] 0) "abcdefghijX".toList
        false).2.stableText ≠ (StabState.mk "abcdefghijX".toList [] 0).stableText) ∧
    ((TextStabilizer.process (17/20) 10
        (StabState.mk "abcdefghijX".toList [] 0) "abcdefghijX".toList
        false).2.stableText <+: "abcdefghijX".toList ∧
     (TextStabilizer.process (17/20) 10
        (StabState.mk "abcdefghijX".toList [] 0) "abcdefghijX".toList
        false).1.stableText =
       (TextStabilizer.process (17/20) 10
          (StabState.mk "abcdefghijX".toList [] 0) "abcdefghijX".toList
          false).2.stableText) :=
  ⟨by with_unfolding_all decide, by with_unfolding_all decide,
   stabilizer_stable_prefix_amended (17/20) 10
     (StabState.mk "abcdefghijX".toList [] 0) "abcdefghijX".toList
     (by with_unfolding_all decide) (by with_unfolding_all decide)⟩

/-! ## PhraseBuffer claim theorems -/

/-- A non-negative `rfind` result is an index of the sought character. -/
lemma rfind_nonneg_getElem (s : List Char) (c : Char)
    (h : 0 ≤ rfind s c) : s[(rfind s c).toNat]? = some c := by
  induction s with
  | nil => simp [rfind] at h
  | cons a rest ih =>
    unfold rfind at h ⊢
    by_cases hr : 0 ≤ rfind rest c
    · rw [if_pos hr] at h ⊢
      have ht : (rfind rest c + 1).toNat = (rfind rest c).toNat + 1 := by omega
      rw [ht, List.getElem?_cons_succ]
      exact ih hr
    · rw [if_neg hr] at h ⊢
      by_cases hac : a == c
      · rw [if_pos hac] at h ⊢
        simp only [Int.toNat_zero, List.getElem?_cons_zero]
        exact congrArg some (eq_of_beq hac)
      · rw [if_neg hac] at h
        omega

/-- The `last_delimiter_pos` fold either keeps its seed or lands on one of
the `rfind` values. -/
lemma foldl_max_rfind_attains (buf : List Char) (l : List Char) (acc : Int) :
    l.foldl (fun a d => max a (rfind buf d)) acc = acc ∨
      ∃ d ∈ l, l.foldl (fun a d => max a (rfind buf d)) acc = rfind buf d := by
  induction l generalizing acc with
  | nil => exact Or.inl rfl
  | cons x xs ih =>
    have hstep : (x :: xs).foldl (fun a d => max a (rfind buf d)) acc =
        xs.foldl (fun a d => max a (rfind buf d)) (max acc (rfind buf x)) := rfl
    rcases ih (max acc (rfind buf x)) with h | ⟨d, hd, he⟩
    · rcases max_cases acc (rfind buf x) with ⟨hm, _⟩ | ⟨hm, _⟩
      · left
        rw [hstep, h, hm]
      · right
        exact ⟨x, List.mem_cons_self x xs, by rw [hstep, h, hm]⟩
    · right
      exact ⟨d, List.mem_cons_of_mem x hd, by rw [hstep, he]⟩

/-- C6 (amended): every phrase emitted by `add` is the whitespace-trimmed
prefix of the combined buffer ending at a recognized delimiter whose index
is ≥ the configured minimum phrase length (trimming can strip the
delimiter itself off the emitted phrase when it is the newline). -/
theorem phrase_emission_at_delimiter_amended (minLen : Nat)
    (delims : List Char) (buffer text phrase buf' : List Char)
    (h : PhraseBuffer.add minLen delims buffer text = (some phrase, buf')) :
    ∃ p : Nat, minLen ≤ p ∧
      (∃ d ∈ delims, (buffer ++ text)[p]? = some d) ∧
      phrase = pyStrip ((buffer ++ text).take (p + 1)) ∧
      buf' = pyStrip ((buffer ++ text).drop (p + 1)) := by
  unfold PhraseBuffer.add at h
  by_cases hlen : minLen ≤ (buffer ++ text).length
  · rw [if_pos hlen] at h
    set lastPos : Int :=
      delims.foldl (fun acc d => max acc (rfind (buffer ++ text) d)) (-1)
      with hlp
    by_cases hpos : (minLen : Int) ≤ lastPos
    · rw [if_pos hpos] at h
      obtain ⟨hphrase, hbuf⟩ := Prod.mk.injEq _ _ _ _ ▸ h
      refine ⟨lastPos.toNat, by omega, ?_, ?_, ?_⟩
      · rcases foldl_max_rfind_attains (buffer ++ text) delims (-1) with
          hacc | ⟨d, hd, he⟩
        · rw [← hlp] at hacc
          omega
        · rw [← hlp] at he
          refine ⟨d, hd, ?_⟩
          rw [he]
          exact rfind_nonneg_getElem (buffer ++ text) d (by omega)
      · exact (Option.some.injEq _ _ ▸ hphrase).symm
      · exact hbuf.symm
    · rw [if_neg hpos] at h
      simp at h
  · rw [if_neg hlen] at h
    simp at h

/-- Witness for `phrase_emission_at_delimiter_amended` at the spec's own
example input. -/
theorem phrase_emission_at_delimiter_amended_witness :
    ∃ p : Nat, 10 ≤ p ∧
      (∃ d ∈ defaultDelims,
        (([] : List Char) ++ "Hello world. How are".toList)[p]? = some d) ∧
      "Hello world.".toList =
        pyStrip ((([] : List Char) ++ "Hello world. How are".toList).take (p + 1)) ∧
      "How are".toList =
        pyStrip ((([] : List Char) ++ "Hello world. How are".toList).drop (p + 1)) :=
  phrase_emission_at_delimiter_amended 10 defaultDelims []
    "Hello world. How are".toList "Hello world.".toList "How are".toList
    (by decide)

/-- C6: as universally stated the claim is false: with minimum phrase
length 20, adding twenty `a`s followed by a newline (a recognized
delimiter) emits the phrase `"aaaaaaaaaaaaaaaaaaaa"` — `strip()` removes
the trailing newline, so the emitted phrase does not end at any
delimiter. -/
theorem phrase_emission_at_delimiter_counterexample :
    (PhraseBuffer.add 20 defaultDelims [] "aaaaaaaaaaaaaaaaaaaa\n".toList).1 =
      some "aaaaaaaaaaaaaaaaaaaa".toList ∧
    ∀ d ∈ defaultDelims, "aaaaaaaaaaaaaaaaaaaa".toList.getLast? ≠ some d := by
  decide

/-- C3: the claim's expected outcome is false on the code: `add` does not
insert separators, so the retained `"How are"` concatenated with `"you?"`
is `"How areyou?"`, whose `'?'` sits at index 10 = the minimum phrase
length — the second call therefore emits (rather than buffering until
`flush`). -/
theorem phrase_buffer_example_counterexample :
    ((PhraseBuffer.add 10 defaultDelims
        (PhraseBuffer.add 10 defaultDelims [] "Hello world. How are".toList).2
        "you?".toList).1 ≠ none) ∧
    ((PhraseBuffer.flush (PhraseBuffer.add 10 defaultDelims
        (PhraseBuffer.add 10 defaultDelims [] "Hello world. How are".toList).2
        "you?".toList).2).1 ≠ "How are you?".toList) := by
  decide

/-- C3 (amended): with minimum phrase length 10,
`add("Hello world. How are")` emits `"Hello world."` and retains
`"How are"`; the subsequent `add("you?")` emits `"How areyou?"` (the
buffer is concatenated without a separator and `'?'` lands at index 10),
leaving the buffer empty, so `flush()` returns `""`. -/
theorem phrase_buffer_example_amended :
    PhraseBuffer.add 10 defaultDelims [] "Hello world. How are".toList =
      (some "Hello world.".toList, "How are".toList) ∧
    PhraseBuffer.add 10 defaultDelims "How are".toList "you?".toList =
      (some "How areyou?".toList, ([] : List Char)) ∧
    PhraseBuffer.flush ([] : List Char) = ([], []) := by
  decide

/-! ## MetricsCollector (metrics.py, lines 15-172)

A metric is its bounded window (`deque(maxlen=window_size)`) of rational
samples.  `statistics.stdev` takes a square root, so the `'stdev'` entry
of the stats dictionary lives in `ℝ` and is modelled by the separate
`stdevStat`; every other entry is exact rational arithmetic. -/

/-- `deque(maxlen=windowSize).append(value)`: oldest entries are evicted
once the window is at capacity. -/
def windowAppend (windowSize : Nat) (window : List ℚ) (value : ℚ) : List ℚ :=
  let w := window ++ [value]
  if windowSize < w.length then w.drop (w.length - windowSize) else w

/-- Record a whole sequence of values into one metric's (initially empty)
window. -/
def recordAll (windowSize : Nat) (values : List ℚ) : List ℚ :=
  values.foldl (windowAppend windowSize) []

/-- Stable insertion into a sorted list (equal keys keep earlier elements
first, as Python's stable `sorted` does). -/
def insertSorted (x : ℚ) : List ℚ → List ℚ
  | [] => [x]
  | y :: ys => if y ≤ x then y :: insertSorted x ys else x :: y :: ys

/-- Python `sorted(values)`. -/
def pySorted (values : List ℚ) : List ℚ :=
  values.foldr insertSorted []

/-- `MetricsCollector._percentile`: nearest rank on the sorted window,
`index = int(n * p)` clamped to the last index.  `int()` truncates toward
zero, which for the non-negative products used here is the floor. -/
def percentile (values : List ℚ) (p : ℚ) : ℚ :=
  if values = [] then 0
  else
    let sorted := pySorted values
    let index := min (⌊(values.length : ℚ) * p⌋).toNat (values.length - 1)
    sorted.getD index 0

/-- `statistics.mean`. -/
def meanStat (values : List ℚ) : ℚ := values.sum / (values.length : ℚ)

/-- `statistics.median`: middle element, or the average of the two middle
elements of the sorted data. -/
def medianStat (values : List ℚ) : ℚ :=
  let sorted := pySorted values
  let n := values.length
  if n % 2 = 1 then sorted.getD (n / 2) 0
  else (sorted.getD (n / 2 - 1) 0 + sorted.getD (n / 2) 0) / 2

/-- Σ (x - mean)² — the exact sum of squared deviations that
`statistics.variance` computes (its fraction arithmetic is exact, and the
round-off correction term is then zero). -/
def sumSqDev (values : List ℚ) : ℚ :=
  ((values.map (fun x => (x - meanStat values) ^ 2)).sum)

/-- `statistics.variance` (sample variance, n-1 denominator; callers
guard n ≥ 2). -/
def sampleVariance (values : List ℚ) : ℚ :=
  sumSqDev values / ((values.length : ℚ) - 1)

/-- The `'stdev'` entry: `statistics.stdev(values) if len(values) > 1
else 0.0`. -/
noncomputable def stdevStat (values : List ℚ) : ℝ :=
  if 1 < values.length then Real.sqrt ((sampleVariance values : ℚ) : ℝ)
  else 0

/-- Spec-side definition (spec §4.5: "population standard deviation"),
for comparison with the code's `stdevStat`: √(Σ (x - mean)² / n). -/
noncomputable def populationStdevSpec (values : List ℚ) : ℝ :=
  Real.sqrt (((sumSqDev values / (values.length : ℚ) : ℚ) : ℝ))

/-- The rational-valued entries of the `get_stats` dictionary. -/
structure Stats where
  mean : ℚ
  median : ℚ
  statMin : ℚ
  statMax : ℚ
  count : Nat
  p95 : ℚ
  p99 : ℚ
deriving DecidableEq

/-- `MetricsCollector.get_stats` on one metric's window (`None` when the
metric is absent or empty). -/
def getStats (values : List ℚ) : Option Stats :=
  if values = [] then none
  else some
    { mean := meanStat values
      median := medianStat values
      statMin := values.foldl min (values.headD 0)
      statMax := values.foldl max (values.headD 0)
      count := values.length
      p95 := percentile values (95/100)
      p99 := percentile values (99/100) }

example : getStats [0, 2] =
    some { mean := 1, median := 1, statMin := 0, statMax := 2,
           count := 2, p95 := 2, p99 := 2 } := by
  with_unfolding_all decide

example : sampleVariance [0, 2] = 2 := by with_unfolding_all decide
example : sumSqDev [0, 2] / (([0, 2] : List ℚ).length : ℚ) = 1 := by
  with_unfolding_all decide

lemma sumSqDev_nonneg (values : List ℚ) : 0 ≤ sumSqDev values := by
  refine List.sum_nonneg ?_
  intro x hx
  obtain ⟨y, _, rfl⟩ := List.mem_map.mp hx
  positivity

/-- C7: the claim is false: the `'stdev'` entry is `statistics.stdev`
(SAMPLE standard deviation, n-1 denominator), not the population one.
On the window `[0, 2]` the code yields √2 while the population standard
deviation is 1. -/
theorem metrics_stdev_population_counterexample :
    stdevStat [0, 2] ≠ populationStdevSpec [0, 2] := by
  have hs : sampleVariance [0, 2] = 2 := by with_unfolding_all decide
  have hp : sumSqDev [0, 2] / (([0, 2] : List ℚ).length : ℚ) = 1 := by
    with_unfolding_all decide
  unfold stdevStat populationStdevSpec
  rw [if_pos (by decide : 1 < ([0, 2] : List ℚ).length), hs, hp]
  push_cast
  intro h
  have h2 : (Real.sqrt 2) ^ 2 = (2 : ℝ) := Real.sq_sqrt (by norm_num)
  rw [h, Real.sqrt_one] at h2
  norm_num at h2

/-- C7 (amended): for every metric window with at least one sample,
the `'stdev'` entry is the SAMPLE standard deviation — 0 for fewer than 2
samples, otherwise the square root of Σ(x-mean)²/(n-1) — and p95/p99 are
nearest-rank on the sorted window with index ⌊p·n⌋ clamped to the last
index. -/
theorem metrics_stats_amended (values : List ℚ) (stats : Stats)
    (h : getStats values = some stats) :
    (values.length ≤ 1 → stdevStat values = 0) ∧
    (2 ≤ values.length →
      stdevStat values ^ 2 =
        ((sumSqDev values : ℚ) : ℝ) / (((values.length : ℚ) : ℝ) - 1) ∧
      0 ≤ stdevStat values) ∧
    stats.p95 = (pySorted values).getD
      (min (⌊(95/100 : ℚ) * (values.length : ℚ)⌋).toNat (values.length - 1)) 0 ∧
    stats.p99 = (pySorted values).getD
      (min (⌊(99/100 : ℚ) * (values.length : ℚ)⌋).toNat (values.length - 1)) 0 := by
  have hne : values ≠ [] := by
    intro he
    rw [he] at h
    simp [getStats] at h
  have hstats : stats =
      { mean := meanStat values
        median := medianStat values
        statMin := values.foldl min (values.headD 0)
        statMax := values.foldl max (values.headD 0)
        count := values.length
        p95 := percentile values (95/100)
        p99 := percentile values (99/100) } := by
    unfold getStats at h
    rw [if_neg hne] at h
    exact (Option.some.injEq _ _ ▸ h).symm
  refine ⟨?_, ?_, ?_, ?_⟩
  · intro hlen
    unfold stdevStat
    rw [if_neg (by omega)]
  · intro hlen
    have hvar : (0 : ℚ) ≤ sampleVariance values := by
      unfold sampleVariance
      apply div_nonneg (sumSqDev_nonneg values)
      have : (2 : ℚ) ≤ (values.length : ℚ) := by exact_mod_cast hlen
      linarith
    constructor
    · unfold stdevStat
      rw [if_pos (by omega)]
      rw [Real.sq_sqrt (by exact_mod_cast hvar)]
      unfold sampleVariance
      push_cast
      ring
    · unfold stdevStat
      rw [if_pos (by omega)]
      exact Real.sqrt_nonneg _
  · rw [hstats]
    show percentile values (95/100) = _
    unfold percentile
    rw [if_neg hne, mul_comm]
  · rw [hstats]
    show percentile values (99/100) = _
    unfold percentile
    rw [if_neg hne, mul_comm]

/-- Witness for `metrics_stats_amended` on the window `[0, 2]`. -/
theorem metrics_stats_amended_witness :
    (getStats [0, 2] =
      some { mean := 1, median := 1, statMin := 0, statMax := 2,
             count := 2, p95 := 2, p99 := 2 }) ∧
    ((([0, 2] : List ℚ).length ≤ 1 → stdevStat [0, 2] = 0) ∧
     (2 ≤ ([0, 2] : List ℚ).length →
       stdevStat [0, 2] ^ 2 =
         ((sumSqDev [0, 2] : ℚ) : ℝ) / (((([0, 2] : List ℚ).length : ℚ) : ℝ) - 1) ∧
       0 ≤ stdevStat [0, 2]) ∧
     (Stats.mk 1 1 0 2 2 2 2).p95 = (pySorted [0, 2]).getD
       (min (⌊(95/100 : ℚ) * ((([0, 2] : List ℚ).length : ℚ))⌋).toNat
         (([0, 2] : List ℚ).length - 1)) 0 ∧
     (Stats.mk 1 1 0 2 2 2 2).p99 = (pySorted [0, 2]).getD
       (min (⌊(99/100 : ℚ) * ((([0, 2] : List ℚ).length : ℚ))⌋).toNat
         (([0, 2] : List ℚ).length - 1)) 0) :=
  ⟨by with_unfolding_all decide,
   metrics_stats_amended [0, 2] (Stats.mk 1 1 0 2 2 2 2)
     (by with_unfolding_all decide)⟩

/-- C8: recording 150 values into a window of capacity 100 retains exactly
the last 100 in order, and for the window 1..100 the p95 returned by the
percentile routine is the element at (0-based) index 95 of the sorted
window, namely 96. -/
theorem metrics_window_eviction_p95 :
    recordAll 100 ((List.range 150).map (fun i => ((i + 1 : Nat) : ℚ))) =
      (List.range 100).map (fun i => ((i + 51 : Nat) : ℚ)) ∧
    percentile ((List.range 100).map (fun i => ((i + 1 : Nat) : ℚ)))
        (95/100) =
      (pySorted ((List.range 100).map (fun i => ((i + 1 : Nat) : ℚ)))).getD
        95 0 ∧
    (pySorted ((List.range 100).map (fun i => ((i + 1 : Nat) : ℚ)))).getD
        95 0 = 96 := by
  with_unfolding_all decide

/-! ## PipelineOrchestrator (orchestrator.py, lines 23-347)

The three ML collaborators are external (spec §6); real engines enter the
model as arbitrary `Except`-valued functions, and the deterministic mocks
substituted on initialization failure are embedded from asr.py /
translator.py / tts.py.  Wall-clock latency fields and the latency
metrics recorded from them are outside the embedding (real time). -/

structure TranscribeResult where
  text : List Char
  confidence : ℚ

/-- Synthesized audio: engine-produced bytes, or the fixed WAV beep MockTTS
generates (an opaque constant — its numeric rendering is external). -/
inductive AudioOut
  | bytes (data : List Nat)
  | mockBeep
deriving DecidableEq

/-- ASR collaborator: the real Whisper engine as a function, or `MockASR`
substituted when `asr.initialize()` raised (orchestrator.py line 110). -/
inductive ASRImpl
  | real (f : List ℚ → Except String TranscribeResult)
  | mock

/-- `asr.transcribe`: MockASR returns `'[Mock transcription]'` with
confidence 1.0 (asr.py lines 276-283). -/
def ASRImpl.transcribe : ASRImpl → List ℚ → Except String TranscribeResult
  | .real f, segment => f segment
  | .mock, _ => .ok { text := "[Mock transcription]".toList, confidence := 1 }

/-- Translator collaborator, with `MockTranslator` carrying its target
language. -/
inductive TranslatorImpl
  | real (f : List Char → Except String (List Char))
  | mock (targetLang : String)

/-- `translator.translate`: MockTranslator returns
`f"[{target_lang.upper()}] {text}"` (translator.py line 246). -/
def TranslatorImpl.translate :
    TranslatorImpl → List Char → Except String (List Char)
  | .real f, text => f text
  | .mock tgt, text =>
    .ok ("[".toList ++ tgt.toUpper.toList ++ "] ".toList ++ text)

/-- TTS collaborator. -/
inductive TTSImpl
  | real (f : List Char → Except String (Option AudioOut))
  | mock

/-- `tts.synthesize`: MockTTS always returns the generated beep
(tts.py lines 308-328). -/
def TTSImpl.synthesize : TTSImpl → List Char → Except String (Option AudioOut)
  | .real f, text => f text
  | .mock, _ => .ok (some AudioOut.mockBeep)

/-- The process-wide `MetricsCollector` state: named windows and counters
(`start_time` is wall-clock, outside the embedding). -/
structure OrchMetrics where
  metrics : List (String × List ℚ)
  counters : List (String × Int)
deriving DecidableEq

structure Orchestrator where
  vadCfg : VADConfig
  vadState : VADState
  stabState : StabState
  phraseBuffer : List Char
  orchMetrics : OrchMetrics
  asr : ASRImpl
  translator : TranslatorImpl
  tts : TTSImpl
  isReady : Bool
  similarityThreshold : ℚ
  minStableLength : Nat
  sourceLang : String
  targetLang : String

/-- `initialize` (orchestrator.py lines 57-173): each collaborator's
`await x.initialize()` outcome enters as an `Except`; on failure the
corresponding mock is substituted (lines 110, 130, 164) and `is_ready`
is still set to `True` (line 168). -/
def initPipeline (vadCfg : VADConfig) (thr : ℚ) (minLen : Nat)
    (sourceLang targetLang : String)
    (asrInit : Except String (List ℚ → Except String TranscribeResult))
    (translatorInit : Except String (List Char → Except String (List Char)))
    (ttsInit : Except String (List Char → Except String (Option AudioOut))) :
    Orchestrator :=
  { vadCfg := vadCfg
    vadState := VADState.reset
    stabState := StabState.reset
    phraseBuffer := []
    orchMetrics := { metrics := [], counters := [] }
    asr := match asrInit with | .ok f => .real f | .error _ => .mock
    translator :=
      match translatorInit with
      | .ok f => .real f
      | .error _ => .mock targetLang
    tts := match ttsInit with | .ok f => .real f | .error _ => .mock
    isReady := true
    similarityThreshold := thr
    minStableLength := minLen
    sourceLang := sourceLang
    targetLang := targetLang }

/-- `VoiceActivityDetector.get_state` (vad.py lines 214-221). -/
structure VADStateView where
  isSpeaking : Bool
  speechFrames : Nat
  silenceFrames : Nat
  bufferSize : Nat
deriving DecidableEq

def VADState.getState (st : VADState) : VADStateView :=
  { isSpeaking := st.isSpeaking, speechFrames := st.speechFrames,
    silenceFrames := st.silenceFrames, bufferSize := st.speechBuffer.length }

/-- `TextStabilizer.get_state` (stabilizer.py lines 165-171). -/
structure StabStateView where
  stableTextLength : Nat
  previousTextLength : Nat
  consecutiveStable : Nat
deriving DecidableEq

def StabState.getState (st : StabState) : StabStateView :=
  { stableTextLength := st.stableText.length,
    previousTextLength := st.previousText.length,
    consecutiveStable := st.consecutiveStableCount }

/-- Everything `get_status` returns (`uptime_seconds` is wall-clock and
outside the embedding).  Note the fields: nothing records which
collaborators are mocks. -/
structure Status where
  ready : Bool
  vadState : VADStateView
  stabilizerState : StabStateView
  metricsSummary : List (String × Stats)
  counters : List (String × Int)
deriving DecidableEq

/-- `PipelineOrchestrator.get_status` (orchestrator.py lines 317-324),
with `metrics.get_summary()` inlined (metrics.py lines 107-125). -/
def PipelineOrchestrator.getStatus (o : Orchestrator) : Status :=
  { ready := o.isReady
    vadState := o.vadState.getState
    stabilizerState := o.stabState.getState
    metricsSummary :=
      o.orchMetrics.metrics.filterMap
        (fun nm => (getStats nm.2).map (fun s => (nm.1, s)))
    counters := o.orchMetrics.counters }

/-- What `process_audio` can hand back (latency/metrics sub-dictionaries
omitted: wall-clock). -/
inductive ProcessResult
  | noResult
  | vadStatus (isSpeech : Bool)
  | processingError (error : String)
  | bundle (transcription translation : List Char)
      (audioBytes : Option AudioOut) (sourceLang targetLang : String)
      (isFinal : Bool)

/-- `PipelineOrchestrator.process_audio` (orchestrator.py lines 175-286).
Stage faults (`Except.error`) are converted by the surrounding
`try/except` into a `processing_error` result — the call itself never
raises. -/
def PipelineOrchestrator.processAudio (o : Orchestrator)
    (chunk : List ℚ) (isSpeechDetected : Bool) : ProcessResult × Orchestrator :=
  if o.isReady = false then (.noResult, o)
  else if chunk = [] then (.noResult, o)
  else
    let vr := VoiceActivityDetector.process o.vadCfg o.vadState chunk
      isSpeechDetected
    let o1 := { o with vadState := vr.2 }
    match vr.1.2 with
    | none => (.vadStatus vr.1.1, o1)
    | some segment =>
      match o.asr.transcribe segment with
      | .error e => (.processingError e, o1)
      | .ok tr =>
        if tr.text = [] then (.noResult, o1)
        else
          let sres := TextStabilizer.process o.similarityThreshold
            o.minStableLength o1.stabState tr.text true
          let o2 := { o1 with stabState := sres.2 }
          match o.translator.translate sres.1.stableText with
          | .error e => (.processingError e, o2)
          | .ok translated =>
            match o.tts.synthesize translated with
            | .error e => (.processingError e, o2)
            | .ok audio =>
              (.bundle sres.1.stableText translated audio
                o.sourceLang o.targetLang true, o2)

/-- C4: the distinguishability part of the claim is false: `get_status`
(orchestrator.py lines 317-324) carries no degraded-mode flag — a session
whose three collaborators ALL failed initialization and fell back to
stubs reports a status identical to that of a fully initialized session,
`ready = True` included. -/
theorem orchestrator_degraded_status_counterexample :
    PipelineOrchestrator.getStatus
      (initPipeline (VADConfig.ofDurations 250 300) (17/20) 10 "en" "es"
        (.error "ASR initialization failed")
        (.error "Translation initialization failed")
        (.error "TTS initialization failed")) =
    PipelineOrchestrator.getStatus
      (initPipeline (VADConfig.ofDurations 250 300) (17/20) 10 "en" "es"
        (.ok (fun _ => .ok { text := "real".toList, confidence := 1 }))
        (.ok (fun t => .ok t))
        (.ok (fun _ => .ok (some (AudioOut.bytes [0]))))) := rfl

/-- C4 (amended): collaborators raising during initialization are replaced
by deterministic stubs and `process_audio` still returns well-formed
results without raising — no input yields a `processing_error` — and on
segment completion the bundle carries the stubs' outputs; but `get_status`
exposes NO degraded-mode flag: degraded operation is not distinguishable
from full operation through it. -/
theorem orchestrator_degraded_amended (o : Orchestrator)
    (chunk : List ℚ) (b : Bool)
    (hasr : o.asr = ASRImpl.mock)
    (htr : o.translator = TranslatorImpl.mock o.targetLang)
    (htts : o.tts = TTSImpl.mock)
    (hready : o.isReady = true) :
    (∀ e, (PipelineOrchestrator.processAudio o chunk b).1 ≠
      ProcessResult.processingError e) ∧
    ((chunk ≠ [] ∧
        (VoiceActivityDetector.process o.vadCfg o.vadState chunk b).1.2 ≠ none) →
      (PipelineOrchestrator.processAudio o chunk b).1 =
        ProcessResult.bundle "[Mock transcription]".toList
          ("[".toList ++ o.targetLang.toUpper.toList ++ "] ".toList ++
            "[Mock transcription]".toList)
          (some AudioOut.mockBeep) o.sourceLang o.targetLang true) := by
  unfold PipelineOrchestrator.processAudio
  rw [hready]
  simp only [Bool.true_eq_false, if_false]
  by_cases hchunk : chunk = []
  · rw [if_pos hchunk]
    constructor
    · intro e h
      exact ProcessResult.noConfusion h
    · rintro ⟨hc, _⟩
      exact absurd hchunk hc
  · rw [if_neg hchunk]
    rw [hasr, htr, htts]
    cases hvad : (VoiceActivityDetector.process o.vadCfg o.vadState chunk b).1.2 with
    | none =>
      simp only [hvad]
      constructor
      · intro e h
        exact ProcessResult.noConfusion h
      · rintro ⟨_, hemit⟩
        exact absurd rfl hemit
    | some segment =>
      simp only [hvad, ASRImpl.transcribe]
      rw [if_neg (by decide : ¬ ("[Mock transcription]".toList = ([] : List Char)))]
      rw [stabilizer_final_nonempty o.similarityThreshold o.minStableLength _
        "[Mock transcription]".toList (by decide)]
      simp only [TranslatorImpl.translate, TTSImpl.synthesize]
      refine ⟨fun e h => ProcessResult.noConfusion h, fun _ => ?_⟩
      trivial

/-- A degraded session (all three collaborators stubbed) mid-speech, one
silence frame away from closure. -/
def degradedSpeaking : Orchestrator :=
  { initPipeline (VADConfig.mk 1 1) (17/20) 10 "en" "es"
      (.error "ASR initialization failed")
      (.error "Translation initialization failed")
      (.error "TTS initialization failed") with
    vadState := VADState.mk [[1]] true 3 0 }

/-- Witness for `orchestrator_degraded_amended`: the degraded session
completes a segment and hands back the stub-built bundle. -/
theorem orchestrator_degraded_amended_witness :
    (∀ e, (PipelineOrchestrator.processAudio degradedSpeaking [0] false).1 ≠
      ProcessResult.processingError e) ∧
    (PipelineOrchestrator.processAudio degradedSpeaking [0] false).1 =
      ProcessResult.bundle "[Mock transcription]".toList
        ("[".toList ++ degradedSpeaking.targetLang.toUpper.toList ++
          "] ".toList ++ "[Mock transcription]".toList)
        (some AudioOut.mockBeep) degradedSpeaking.sourceLang
        degradedSpeaking.targetLang true :=
  have h := orchestrator_degraded_amended degradedSpeaking [0] false
    rfl rfl rfl rfl
  ⟨h.1, h.2 ⟨by decide, by decide⟩⟩

end TalkFlow
